import Mathlib

/-!
Verification of the mysql-explorer repository's query-validation and
export pipeline.  The definitions below are a shallow embedding of
`src/mysql_explorer.py` (stdio server) and
`src/mysql_explorer_sse/mysql_explorer_sse.py` (SSE server): SQL text is
`List Char`, Python string methods are modelled character-exactly for
ASCII input, and the stateful parts of `read_query` / `save_query_results`
are modelled as pure functions that additionally return the externally
visible events (connection opens, file writes).
-/

set_option maxHeartbeats 4000000
set_option maxRecDepth 10000

/-- The single-quote character, written numerically. -/
def singleQuoteChar : Char := Char.ofNat 39

/-- The double-quote character, written numerically. -/
def doubleQuoteChar : Char := Char.ofNat 34

/-- The backslash character, written numerically. -/
def backslashChar : Char := Char.ofNat 92

/-- The backtick character, written numerically. -/
def backtickChar : Char := Char.ofNat 96

/-- The newline character. -/
def nlChar : Char := Char.ofNat 10

/-- The carriage-return character. -/
def crChar : Char := Char.ofNat 13

/-- ASCII whitespace recognized by Python `str.strip` / `str.split`. -/
def isPySpace (c : Char) : Bool :=
  c = ' ' || c = Char.ofNat 9 || c = nlChar || c = crChar ||
  c = Char.ofNat 11 || c = Char.ofNat 12

/-- Python `str.strip()`: drop leading and trailing whitespace. -/
def pyStrip (l : List Char) : List Char :=
  ((l.dropWhile isPySpace).reverse.dropWhile isPySpace).reverse

/-- Model of `mysql_explorer.py` lines 66-67: remove one trailing semicolon, then
strip again. -/
def trimSemicolon (l : List Char) : List Char :=
  if l.getLast? = some ';' then pyStrip l.dropLast else l

/-- The state tracked by the multi-statement scanner of
`mysql_explorer.py` lines 70-87: inside-single-quote, inside-double-quote,
escaped-next-char. -/
structure ScanState where
  insq : Bool
  indq : Bool
  esc  : Bool
deriving DecidableEq, Repr

/-- Initial scanner state: outside all quotes, not escaped. -/
def startState : ScanState := ⟨false, false, false⟩

/-- A scanner state in which a semicolon terminates the scan: outside both
quote kinds and with no pending escape. -/
def cleanState (st : ScanState) : Bool := !st.insq && !st.indq && !st.esc

/-- One character of the scan of `contains_multiple_statements`
(`mysql_explorer.py` lines 74-86), as a state-transition function. -/
def cmsStep (st : ScanState) (c : Char) : ScanState :=
  if st.esc then ⟨st.insq, st.indq, false⟩
  else if c = backslashChar then ⟨st.insq, st.indq, true⟩
  else if c = singleQuoteChar ∧ st.indq = false then ⟨!st.insq, st.indq, false⟩
  else if c = doubleQuoteChar ∧ st.insq = false then ⟨st.insq, !st.indq, false⟩
  else ⟨st.insq, st.indq, false⟩

/-- The scan loop of `contains_multiple_statements` in `mysql_explorer.py`
(lines 70-87), started from an arbitrary state: returns `true` at the
first semicolon seen outside quotes with no pending escape. -/
def cmsFrom (st : ScanState) : List Char → Bool
  | [] => false
  | c :: rest =>
    if st.esc then cmsFrom ⟨st.insq, st.indq, false⟩ rest
    else if c = backslashChar then cmsFrom ⟨st.insq, st.indq, true⟩ rest
    else if c = singleQuoteChar ∧ st.indq = false then cmsFrom ⟨!st.insq, st.indq, false⟩ rest
    else if c = doubleQuoteChar ∧ st.insq = false then cmsFrom ⟨st.insq, !st.indq, false⟩ rest
    else if c = ';' ∧ st.insq = false ∧ st.indq = false then true
    else cmsFrom ⟨st.insq, st.indq, false⟩ rest

/-- Function `contains_multiple_statements` from `mysql_explorer.py` lines 70-87. -/
def contains_multiple_statements (sql : List Char) : Bool :=
  cmsFrom startState sql

/-- Declarative form of the multi-statement condition: some position `i`
holds a semicolon and the scanner state accumulated over the prefix before
`i` is outside both quote kinds with no pending escape. -/
def declMulti (l : List Char) : Bool :=
  (List.range l.length).any fun i =>
    (l.getD i ' ' == ';') && cleanState ((l.take i).foldl cmsStep startState)

theorem sq_ne_bs : singleQuoteChar ≠ backslashChar := by decide

theorem dq_ne_bs : doubleQuoteChar ≠ backslashChar := by decide

theorem dq_ne_sq : doubleQuoteChar ≠ singleQuoteChar := by decide

theorem semi_ne_bs : (';' : Char) ≠ backslashChar := by decide

theorem semi_ne_sq : (';' : Char) ≠ singleQuoteChar := by decide

theorem semi_ne_dq : (';' : Char) ≠ doubleQuoteChar := by decide

theorem bs_bne_semi : (backslashChar == ';') = false := by decide

theorem sq_bne_semi : (singleQuoteChar == ';') = false := by decide

theorem dq_bne_semi : (doubleQuoteChar == ';') = false := by decide

theorem cmsFrom_eq_any (l : List Char) : ∀ st : ScanState,
    cmsFrom st l =
      ((List.range l.length).any fun i =>
        (l.getD i ' ' == ';') && cleanState ((l.take i).foldl cmsStep st)) := by
  induction l with
  | nil => intro st; rfl
  | cons c rest ih =>
    intro st
    have hmap :
        ((List.range rest.length).any fun i =>
          (((c :: rest).getD (i + 1) ' ') == ';') &&
            cleanState (((c :: rest).take (i + 1)).foldl cmsStep st)) =
        ((List.range rest.length).any fun i =>
          ((rest.getD i ' ') == ';') &&
            cleanState ((rest.take i).foldl cmsStep (cmsStep st c))) := by
      apply congrArg
      funext i
      simp [List.getD_cons_succ, List.take_succ_cons, List.foldl_cons]
    have hr :
        ((List.range (c :: rest).length).any fun i =>
          (((c :: rest).getD i ' ') == ';') &&
            cleanState (((c :: rest).take i).foldl cmsStep st)) =
        (((c == ';') && cleanState st) || cmsFrom (cmsStep st c) rest) := by
      rw [List.length_cons, List.range_succ_eq_map, List.any_cons, List.any_map]
      simp only [Function.comp_def]
      rw [hmap, ← ih (cmsStep st c)]
      simp [List.getD_cons_zero]
    rw [hr]
    obtain ⟨insq, indq, esc⟩ := st
    cases esc with
    | true =>
      simp [cmsFrom, cmsStep, cleanState]
    | false =>
      by_cases hb : c = backslashChar
      · subst hb
        simp [cmsFrom, cmsStep, bs_bne_semi]
      · by_cases hs : c = singleQuoteChar
        · subst hs
          cases indq with
          | false =>
            simp [cmsFrom, cmsStep, sq_ne_bs, sq_bne_semi]
          | true =>
            simp [cmsFrom, cmsStep, sq_ne_bs, dq_ne_sq.symm, sq_bne_semi]
        · by_cases hd : c = doubleQuoteChar
          · subst hd
            cases insq with
            | false =>
              simp [cmsFrom, cmsStep, dq_ne_bs, dq_ne_sq, dq_bne_semi]
            | true =>
              simp [cmsFrom, cmsStep, dq_ne_bs, dq_ne_sq, dq_bne_semi]
          · by_cases hc : c = ';'
            · subst hc
              cases insq with
              | false =>
                cases indq with
                | false =>
                  simp [cmsFrom, cmsStep, semi_ne_bs, semi_ne_sq, semi_ne_dq, cleanState]
                | true =>
                  simp [cmsFrom, cmsStep, semi_ne_bs, semi_ne_sq, semi_ne_dq, cleanState]
              | true =>
                simp [cmsFrom, cmsStep, semi_ne_bs, semi_ne_sq, semi_ne_dq, cleanState]
            · have hcne : (c == ';') = false := by
                simp [hc]
              simp [cmsFrom, cmsStep, hb, hs, hd, hc, hcne]

theorem contains_multiple_statements_eq_decl (l : List Char) :
    contains_multiple_statements l = declMulti l :=
  cmsFrom_eq_any l startState

/-- Negation of `isPySpace`, the word-character test of Python
`str.split()`. -/
def notPySpace (c : Char) : Bool := !(isPySpace c)

/-- Python `str.split()` with no separator: maximal runs of
non-whitespace, empty runs dropped.  Structurally fuelled by the input
length so the kernel can evaluate it. -/
def splitWsFuel : Nat → List Char → List (List Char)
  | 0, _ => []
  | _ + 1, [] => []
  | fuel + 1, c :: rest =>
    if isPySpace c then splitWsFuel fuel rest
    else (c :: rest.takeWhile notPySpace) :: splitWsFuel fuel (rest.dropWhile notPySpace)

/-- Python `str.split()` on a full string. -/
def splitWs (l : List Char) : List (List Char) := splitWsFuel l.length l

/-- Model of `mysql_explorer.py` line 93: lower-case, then collapse whitespace runs
to single spaces (Python has lower-then-split; lowering does not touch
whitespace). -/
def normalizeQueryText (l : List Char) : List Char :=
  List.intercalate ([' ']) (splitWs (l.map Char.toLower))

/-- The allow-listed leading strings of `mysql_explorer.py` lines 96-103. -/
def allowed_prefixes : List (List Char) :=
  [("select").data, ("show").data, ("describe").data,
   ("desc").data, ("explain").data, ("with").data]

/-- Model of `mysql_explorer.py` line 106: `any(query_normalized.startswith(p))`. -/
def startsWithAllowed (l : List Char) : Bool :=
  allowed_prefixes.any fun p => p.isPrefixOf l

/-- Drop characters up to and including the first occurrence of `d`;
`none` when `d` does not occur.  Helper for the regex model below. -/
def dropThroughDelim (d : Char) : List Char → Option (List Char)
  | [] => none
  | c :: rest => if c = d then some rest else dropThroughDelim d rest

/-- Fuelled model of Python `re.sub(d[^d]*d, repl, s)` for a one-character
delimiter `d`: each leftmost non-overlapping delimited run (which, since
the character class excludes `d`, always ends at the nearest following
`d`) is replaced by `repl`; a dangling unmatched delimiter is left as is. -/
def stripQuotedFuel (d : Char) (repl : List Char) : Nat → List Char → List Char
  | _, [] => []
  | 0, l => l
  | fuel + 1, c :: rest =>
    if c = d then
      match dropThroughDelim d rest with
      | some rest2 => repl ++ stripQuotedFuel d repl fuel rest2
      | none => c :: rest
    else c :: stripQuotedFuel d repl fuel rest

/-- Python `re.sub` of a delimited run, applied to a full string. -/
def stripQuoted (d : Char) (repl : List Char) (l : List Char) : List Char :=
  stripQuotedFuel d repl l.length l

/-- Python regex word character (`\w`), restricted to ASCII input. -/
def isWordChar (c : Char) : Bool := c.isAlphanum || c = '_'

/-- Python `re.search` word-boundary match of `kw` at position `i` of `s`:
`kw` is a prefix of `s` from `i`, the character before `i` (when any) is
not a word character, and the character after the match (when any) is not
a word character.  `List.getD` returns a space out of range, which is a
non-word character, so both string ends are boundaries. -/
def matchesWordAt (kw s : List Char) (i : Nat) : Bool :=
  kw.isPrefixOf (s.drop i) &&
  (decide (i = 0) || !(isWordChar (s.getD (i - 1) ' '))) &&
  !(isWordChar (s.getD (i + kw.length) ' '))

/-- Python `re.search(rb kw rb, s) is not None` for a keyword of word characters
and internal spaces (rb denotes the word-boundary assertion). -/
def containsWord (kw s : List Char) : Bool :=
  (List.range (s.length + 1)).any fun i => matchesWordAt kw s i

/-- Python `needle in hay` substring containment. -/
def containsSub (needle hay : List Char) : Bool :=
  (List.range (hay.length + 1)).any fun i => needle.isPrefixOf (hay.drop i)

/-- The denylist of `mysql_explorer.py` lines 110-116, in source order. -/
def dangerous_keywords : List (List Char) :=
  [("insert").data, ("update").data, ("delete").data, ("drop").data,
   ("create").data, ("alter").data, ("truncate").data, ("replace").data,
   ("merge").data, ("call").data, ("exec").data, ("execute").data,
   ("grant").data, ("revoke").data, ("set").data, ("reset").data,
   ("flush").data, ("kill").data, ("load").data, ("import").data,
   ("outfile").data, ("dumpfile").data, ("into outfile").data,
   ("into dumpfile").data, ("load_file").data]

/-- Function `contains_dangerous_keywords` from `mysql_explorer.py` lines 119-139:
strip single-quoted runs (replaced by an empty quote pair), then
double-quoted runs, then backtick runs; lower-case and collapse
whitespace; then return the first denylisted keyword found as a whole
word, if any. -/
def contains_dangerous_keywords (sql : List Char) : Bool × List Char :=
  let c1 := stripQuoted singleQuoteChar [singleQuoteChar, singleQuoteChar] sql
  let c2 := stripQuoted doubleQuoteChar [doubleQuoteChar, doubleQuoteChar] c1
  let c3 := stripQuoted backtickChar [backtickChar, backtickChar] c2
  let cleaned := normalizeQueryText c3
  match dangerous_keywords.find? (fun kw => containsWord kw cleaned) with
  | some kw => (true, kw)
  | none => (false, [])

/-- Verdict of the validation prefix of `read_query`
(`mysql_explorer.py` lines 63-143). -/
inductive Verdict where
  | rejectedMultiple
  | rejectedNotReadOnly
  | rejectedDangerous (kw : List Char)
  | accepted (text : List Char)
deriving DecidableEq, Repr

/-- The validation pipeline of `read_query` in `mysql_explorer.py`
(lines 63-143), in source order: strip; trim one trailing semicolon;
multi-statement check; allowlist check on the normalized text; denylist
check on the normalized text. -/
def validate (q : List Char) : Verdict :=
  let q1 := trimSemicolon (pyStrip q)
  if contains_multiple_statements q1 then Verdict.rejectedMultiple
  else
    let qn := normalizeQueryText q1
    if !(startsWithAllowed qn) then Verdict.rejectedNotReadOnly
    else
      match contains_dangerous_keywords qn with
      | (true, kw) => Verdict.rejectedDangerous kw
      | (false, _) => Verdict.accepted q1

/-- Limit injection of `mysql_explorer.py` lines 151-153: append a LIMIT
clause iff the normalized text has no `limit` substring and starts with
`select`. -/
def executionText (q1 qn : List Char) (rowLimit : Nat) : List Char :=
  if !(containsSub (("limit").data) qn) && (("select").data).isPrefixOf qn then
    q1 ++ (" LIMIT ").data ++ (Nat.repr rowLimit).data
  else q1

/-- Externally visible events of one `read_query` call. -/
inductive Ev where
  | connect
  | execute (sql : List Char)
  | close
deriving DecidableEq, Repr

/-- Rejection reasons raised by `read_query` before touching the
database. -/
inductive RqError where
  | multipleStatements
  | notReadOnly
  | dangerousKeyword (kw : List Char)
deriving DecidableEq, Repr

/-- Model of `read_query` in `mysql_explorer.py` lines 60-176: validation
happens first; only an accepted query opens a connection, gets limit
injection, and executes.  The `ok` payload is the `metadata.query` field
of the returned dictionary (line 169), which is the executed text. -/
def read_query_model (q : List Char) (rowLimit : Nat) :
    List Ev × Except RqError (List Char) :=
  match validate q with
  | Verdict.rejectedMultiple => ([], Except.error RqError.multipleStatements)
  | Verdict.rejectedNotReadOnly => ([], Except.error RqError.notReadOnly)
  | Verdict.rejectedDangerous kw => ([], Except.error (RqError.dangerousKeyword kw))
  | Verdict.accepted q1 =>
      ([Ev.connect, Ev.execute (executionText q1 (normalizeQueryText q1) rowLimit), Ev.close],
        Except.ok (executionText q1 (normalizeQueryText q1) rowLimit))

example : validate (("select 1").data) = Verdict.accepted (("select 1").data) := by decide
example : validate (("drop table t").data) = Verdict.rejectedNotReadOnly := by decide
example : validate (("select 1; select 2").data) = Verdict.rejectedMultiple := by decide
example : validate (("select drop from t").data) =
    Verdict.rejectedDangerous (("drop").data) := by decide

namespace Sse

/-- The scan loop of `contains_multiple_statements` in
`mysql_explorer_sse.py` lines 103-113.  Unlike the stdio variant it
tracks no escape state: a backslash is an ordinary character. -/
def cmsSseFrom (insq indq : Bool) : List Char → Bool
  | [] => false
  | c :: rest =>
    if c = singleQuoteChar ∧ indq = false then cmsSseFrom (!insq) indq rest
    else if c = doubleQuoteChar ∧ insq = false then cmsSseFrom insq (!indq) rest
    else if c = ';' ∧ insq = false ∧ indq = false then true
    else cmsSseFrom insq indq rest

/-- Function `contains_multiple_statements` from `mysql_explorer_sse.py`
lines 103-113. -/
def contains_multiple_statements (sql : List Char) : Bool :=
  cmsSseFrom false false sql

/-- The denylist of `mysql_explorer_sse.py` lines 126-131, in source
order. -/
def sse_dangerous : List (List Char) :=
  [("DROP").data, ("DELETE").data, ("UPDATE").data, ("INSERT").data,
   ("ALTER").data, ("CREATE").data, ("TRUNCATE").data, ("REPLACE").data,
   ("GRANT").data, ("REVOKE").data, ("SET").data, ("CALL").data,
   ("EXECUTE").data, ("PREPARE").data, ("DEALLOCATE").data, ("LOCK").data,
   ("UNLOCK").data, ("START TRANSACTION").data, ("COMMIT").data,
   ("ROLLBACK").data, ("SAVEPOINT").data]

/-- Function `contains_dangerous_keywords` from `mysql_explorer_sse.py`
lines 119-137: quoted runs are deleted outright (no backtick pass), the
rest is upper-cased, and keywords are found by plain substring search. -/
def contains_dangerous_keywords (sql : List Char) : Bool × List Char :=
  let s1 := stripQuoted singleQuoteChar [] sql
  let s2 := stripQuoted doubleQuoteChar [] s1
  let up := s2.map Char.toUpper
  match sse_dangerous.find? (fun kw => containsSub kw up) with
  | some kw => (true, kw)
  | none => (false, [])

/-- Verdict of the validation prefix of the SSE `read_query`
(`mysql_explorer_sse.py` lines 95-147). -/
inductive SseVerdict where
  | rejectedMultiple
  | rejectedDangerous (kw : List Char)
  | rejectedNotRead
  | accepted (text : List Char)
deriving DecidableEq, Repr

/-- The validation pipeline of the SSE `read_query`
(`mysql_explorer_sse.py` lines 95-147).  Note the dangerous-keyword check
runs only when the allowlist check has already failed (it only refines
the error message). -/
def validate (q : List Char) : SseVerdict :=
  let q1 := trimSemicolon (pyStrip q)
  if contains_multiple_statements q1 then SseVerdict.rejectedMultiple
  else
    let ql := pyStrip (q1.map Char.toLower)
    if allowed_prefixes.any (fun p => p.isPrefixOf ql) then SseVerdict.accepted q1
    else
      match contains_dangerous_keywords q1 with
      | (true, kw) => SseVerdict.rejectedDangerous kw
      | (false, _) => SseVerdict.rejectedNotRead

end Sse

/-- Scanner state for the claims' notion of "inside a string/identifier
literal" (spec §4.1): single-quote, double-quote and backtick runs, with
a backslash escaping exactly the next character.  This is the claim-side
characterization used to state C1's precondition; the code's own literal
handling is `contains_dangerous_keywords` above. -/
structure LitState where
  insq : Bool
  indq : Bool
  inbt : Bool
  esc  : Bool
deriving DecidableEq, Repr

/-- One character of the spec-side literal scan. -/
def litStep (st : LitState) (c : Char) : LitState :=
  if st.esc then ⟨st.insq, st.indq, st.inbt, false⟩
  else if c = backslashChar then ⟨st.insq, st.indq, st.inbt, true⟩
  else if c = singleQuoteChar ∧ st.indq = false ∧ st.inbt = false then
    ⟨!st.insq, st.indq, st.inbt, false⟩
  else if c = doubleQuoteChar ∧ st.insq = false ∧ st.inbt = false then
    ⟨st.insq, !st.indq, st.inbt, false⟩
  else if c = backtickChar ∧ st.insq = false ∧ st.indq = false then
    ⟨st.insq, st.indq, !st.inbt, false⟩
  else ⟨st.insq, st.indq, st.inbt, false⟩

/-- Position `i` of `l` is outside every string/identifier literal under
the spec's escape-aware reading. -/
def outsideLiterals (l : List Char) (i : Nat) : Bool :=
  let st := (l.take i).foldl litStep ⟨false, false, false, false⟩
  !st.insq && !st.indq && !st.inbt && !st.esc

/-- The claims' precondition "`kw` occurs as a whole word outside
string/identifier literals": a word-boundary occurrence of `kw` starting
at a position that is outside all literals. -/
def specOccursOutside (kw l : List Char) : Bool :=
  (List.range (l.length + 1)).any fun i => matchesWordAt kw l i && outsideLiterals l i

/-- The query selecting rows of logs whose msg column equals the quoted
text don-backslash-quote-t-space-drop-space-this: the keyword `drop` sits
inside a single-quoted literal that contains a backslash-escaped quote. -/
def c1ex1 : List Char :=
  ("select * from logs where msg = ").data ++ [singleQuoteChar] ++ ("don").data ++
    [backslashChar, singleQuoteChar] ++ ("t drop this").data ++ [singleQuoteChar]

/-- The query select, quoted run a-backslash-quote-b, the bare word drop,
then quoted run c: under escape-aware reading the keyword `drop` is
outside both literals. -/
def c1ex2 : List Char :=
  ("select ").data ++
    [singleQuoteChar, 'a', backslashChar, singleQuoteChar, 'b', singleQuoteChar] ++
    (" drop ").data ++ [singleQuoteChar, 'c', singleQuoteChar]

/-- C1 counterexample.  The claim fails in both directions because the
literal stripping is a regex with no escape handling: (a) in `c1ex1` the
keyword `drop` appears only inside a string literal containing a
backslash-escaped quote, yet validation rejects with DangerousKeyword
`drop`; (b) in `c1ex2` the keyword `drop` appears as a whole word outside
every literal, yet validation accepts. -/
theorem c1_counterexample :
    (specOccursOutside (("drop").data) c1ex1 = false ∧
      validate c1ex1 = Verdict.rejectedDangerous (("drop").data)) ∧
    (specOccursOutside (("drop").data) c1ex2 = true ∧
      validate c1ex2 = Verdict.accepted c1ex2) :=
  ⟨⟨by decide, by decide⟩, ⟨by decide, by decide⟩⟩

/-- C1 amended: for a query passing the multi-statement and allowlist
checks, validation rejects with DangerousKeyword `kw` iff `kw` is the
first denylisted keyword occurring as a whole word in the text obtained
by replacing quote-paired runs (paired without escape processing: single,
double, then backtick) by empty delimiter pairs and normalizing.
Keywords inside simple quoted literals are therefore invisible, but a
backslash-escaped quote terminates the stripped run. -/
theorem c1_amended (q kw : List Char)
    (h1 : contains_multiple_statements (trimSemicolon (pyStrip q)) = false)
    (h2 : startsWithAllowed (normalizeQueryText (trimSemicolon (pyStrip q))) = true) :
    validate q = Verdict.rejectedDangerous kw ↔
      contains_dangerous_keywords (normalizeQueryText (trimSemicolon (pyStrip q))) =
        (true, kw) := by
  simp only [validate, h1, h2]
  rcases hk : contains_dangerous_keywords (normalizeQueryText (trimSemicolon (pyStrip q)))
    with ⟨b, w⟩
  cases b with
  | true => simp
  | false => simp

/-- The example from the spec (lower-cased), selecting rows of logs whose
msg column equals the quoted text please-do-not-drop-this: the keyword
sits in a plain quoted literal with no escapes. -/
def c1wit : List Char :=
  ("select * from logs where msg = ").data ++ [singleQuoteChar] ++
    ("please do not drop this").data ++ [singleQuoteChar]

theorem c1_amended_witness :
    contains_multiple_statements (trimSemicolon (pyStrip c1wit)) = false ∧
    startsWithAllowed (normalizeQueryText (trimSemicolon (pyStrip c1wit))) = true ∧
    ¬ validate c1wit = Verdict.rejectedDangerous (("drop").data) := by
  refine ⟨by decide, by decide, fun h => ?_⟩
  have hres := (c1_amended c1wit (("drop").data) (by decide) (by decide)).mp h
  exact absurd hres (by decide)

/-- If the scanner reports a single statement, validation cannot reject
with MultipleStatements. -/
theorem validate_ne_multi_of_false {q : List Char}
    (h : contains_multiple_statements (trimSemicolon (pyStrip q)) = false) :
    validate q ≠ Verdict.rejectedMultiple := by
  intro hv
  simp only [validate, h] at hv
  rcases hk : contains_dangerous_keywords (normalizeQueryText (trimSemicolon (pyStrip q)))
    with ⟨b, w⟩
  rw [hk] at hv
  cases hs : startsWithAllowed (normalizeQueryText (trimSemicolon (pyStrip q))) with
  | true =>
    cases b with
    | true => simp [hs] at hv
    | false => simp [hs] at hv
  | false => simp [hs] at hv

/-- C2 amended: in the stdio server, validation rejects with
MultipleStatements iff, after the one-time trim of a single trailing
semicolon, some position holds a semicolon while the escape-aware scan
state over the preceding prefix is outside both quote kinds with no
pending escape (a backslash escapes exactly the next character).  The SSE
variant is excluded by the counterexample: its scanner processes no
escapes. -/
theorem c2_amended (q : List Char) :
    validate q = Verdict.rejectedMultiple ↔
      declMulti (trimSemicolon (pyStrip q)) = true := by
  rw [← contains_multiple_statements_eq_decl]
  constructor
  · intro hv
    cases h : contains_multiple_statements (trimSemicolon (pyStrip q)) with
    | true => rfl
    | false => exact absurd hv (validate_ne_multi_of_false h)
  · intro h
    simp [validate, h]

/-- The query select, space, backslash, quote, space, semicolon, space,
x: the backslash escapes the quote, so the semicolon is outside every
quoted region under the escape semantics stated by the claim. -/
def c2ex : List Char :=
  ("select ").data ++ [backslashChar, singleQuoteChar] ++ (" ; x").data

/-- C2 counterexample.  `c2ex` contains a semicolon outside quotes that
is not escaped (per the claim's own backslash semantics, equivalently the
declarative scan `declMulti`), yet the SSE server's validation accepts
the query outright: its scanner has no escape handling, so the escaped
quote toggles quote state and hides the semicolon. -/
theorem c2_counterexample :
    declMulti (trimSemicolon (pyStrip c2ex)) = true ∧
    Sse.validate c2ex = Sse.SseVerdict.accepted c2ex :=
  ⟨by decide, by decide⟩

/-- The query `selection 1`: its leading token is `selection`, not in the
allowlist, but it extends `select`. -/
def c3ex : List Char := ("selection 1").data

/-- C3 counterexample.  The allowlist check is a string-prefix test, not
a token test: `selection 1` has leading normalized token `selection`,
which is not in the allowlist, yet validation accepts the query because
the text starts with the characters of `select`. -/
theorem c3_counterexample :
    validate c3ex = Verdict.accepted c3ex ∧
    (splitWs (normalizeQueryText c3ex)).headD [] ∉ allowed_prefixes :=
  ⟨by decide, by decide⟩

/-- C3 amended: validation rejects with NotReadOnly iff the query passes
the multi-statement check and the normalized text does not start, as a
string prefix, with one of select, show, describe, desc, explain, with.
(An accepted query's normalized text therefore starts with one of these
prefixes, but its leading token may merely extend one.) -/
theorem c3_amended (q : List Char) :
    validate q = Verdict.rejectedNotReadOnly ↔
      (contains_multiple_statements (trimSemicolon (pyStrip q)) = false ∧
        startsWithAllowed (normalizeQueryText (trimSemicolon (pyStrip q))) = false) := by
  constructor
  · intro hv
    cases h : contains_multiple_statements (trimSemicolon (pyStrip q)) with
    | true => simp [validate, h] at hv
    | false =>
      refine ⟨rfl, ?_⟩
      cases hs : startsWithAllowed (normalizeQueryText (trimSemicolon (pyStrip q))) with
      | false => rfl
      | true =>
        rcases hk : contains_dangerous_keywords
            (normalizeQueryText (trimSemicolon (pyStrip q))) with ⟨b, w⟩
        cases b with
        | true => simp [validate, h, hs, hk] at hv
        | false => simp [validate, h, hs, hk] at hv
  · rintro ⟨h1, h2⟩
    simp [validate, h1, h2]

/-- A list never equals itself with the LIMIT suffix appended. -/
theorem self_ne_append_limit (q1 : List Char) (rl : Nat) :
    q1 ≠ q1 ++ (" LIMIT ").data ++ (Nat.repr rl).data := by
  intro h
  have hlen := congrArg List.length h
  simp [List.length_append] at hlen

/-- The query `select unlimited from t`: the identifier `unlimited`
contains `limit` as a substring, but `limit` is not a token of it. -/
def c4ex : List Char := ("select unlimited from t").data

/-- C4 counterexample.  The limit-injection guard is a substring test,
not a token test: `select unlimited from t` has no `limit` token, so the
claim demands a ` LIMIT 50` suffix on the executed text, but the code
finds the substring `limit` inside `unlimited` and executes the query
unchanged. -/
theorem c4_counterexample :
    validate c4ex = Verdict.accepted c4ex ∧
    (("select").data).isPrefixOf (normalizeQueryText c4ex) = true ∧
    ("limit").data ∉ splitWs (normalizeQueryText c4ex) ∧
    (read_query_model c4ex 50).2 = Except.ok c4ex ∧
    c4ex ≠ c4ex ++ (" LIMIT ").data ++ (Nat.repr 50).data :=
  ⟨by decide, by decide, by decide, rfl, self_ne_append_limit c4ex 50⟩

/-- C4 amended: for an accepted query, the executed text carries the
appended ` LIMIT {row_limit}` clause iff the normalized text starts with
`select` and does not contain `limit` as a substring (not: as a token);
otherwise the accepted text is executed unchanged. -/
theorem c4_amended (q : List Char) (rl : Nat) (q1 : List Char)
    (h : validate q = Verdict.accepted q1) :
    (read_query_model q rl).2 =
        Except.ok (q1 ++ (" LIMIT ").data ++ (Nat.repr rl).data) ↔
      (containsSub (("limit").data) (normalizeQueryText q1) = false ∧
        (("select").data).isPrefixOf (normalizeQueryText q1) = true) := by
  simp only [read_query_model, h]
  unfold executionText
  cases hc : containsSub (("limit").data) (normalizeQueryText q1) with
  | false =>
    cases hp : (("select").data).isPrefixOf (normalizeQueryText q1) with
    | true => simp [hc, hp]
    | false =>
      simp only [hc, hp, Bool.not_false, Bool.and_false, if_false, Bool.true_and]
      simp [self_ne_append_limit q1 rl]
  | true =>
    simp only [hc, Bool.not_true, Bool.false_and, if_false]
    simp [self_ne_append_limit q1 rl]

theorem c4_amended_witness :
    validate (("select * from t").data) = Verdict.accepted (("select * from t").data) ∧
    (read_query_model (("select * from t").data) 50).2 =
      Except.ok ((("select * from t").data) ++ (" LIMIT ").data ++ (Nat.repr 50).data) ∧
    (read_query_model (("select * from t limit 10").data) 50).2 =
      Except.ok (("select * from t limit 10").data) :=
  ⟨by decide,
    (c4_amended (("select * from t").data) 50 (("select * from t").data)
      (by decide)).mpr ⟨by decide, by decide⟩,
    rfl⟩

/-- C5: a rejected query opens no database connection.  In the model the
event trace of `read_query` on every validation-rejection path is empty,
so no connect event can precede (or follow) the failed validation. -/
theorem c5_no_connect_on_reject (q : List Char) (rl : Nat) (e : RqError)
    (h : (read_query_model q rl).2 = Except.error e) :
    Ev.connect ∉ (read_query_model q rl).1 := by
  unfold read_query_model at h ⊢
  rcases hv : validate q with _ | _ | kw | q1 <;> simp [hv] at h ⊢

theorem c5_no_connect_on_reject_witness :
    (read_query_model (("drop table t").data) 5).2 = Except.error RqError.notReadOnly ∧
    Ev.connect ∉ (read_query_model (("drop table t").data) 5).1 :=
  ⟨rfl, c5_no_connect_on_reject (("drop table t").data) 5 RqError.notReadOnly rfl⟩

/-- C8: the `metadata.query` field of a successful `read_query` return
(the `ok` payload of the model) is the executed text: the accepted text
with the ` LIMIT {row_limit}` clause appended when limit injection fires,
and the accepted (trimmed) text itself otherwise. -/
theorem c8_metadata_query (q : List Char) (rl : Nat) (q1 : List Char)
    (h : validate q = Verdict.accepted q1) :
    (containsSub (("limit").data) (normalizeQueryText q1) = false →
      (("select").data).isPrefixOf (normalizeQueryText q1) = true →
      (read_query_model q rl).2 =
        Except.ok (q1 ++ (" LIMIT ").data ++ (Nat.repr rl).data)) ∧
    (containsSub (("limit").data) (normalizeQueryText q1) = true ∨
        (("select").data).isPrefixOf (normalizeQueryText q1) = false →
      (read_query_model q rl).2 = Except.ok q1) := by
  constructor
  · intro hc hp
    simp only [read_query_model, h]
    unfold executionText
    simp [hc, hp]
  · intro hor
    simp only [read_query_model, h]
    unfold executionText
    rcases hor with hc | hp
    · simp [hc]
    · simp [hp]

theorem c8_metadata_query_witness :
    validate (("select * from t").data) = Verdict.accepted (("select * from t").data) ∧
    (read_query_model (("select * from t").data) 7).2 =
      Except.ok ((("select * from t").data) ++ (" LIMIT ").data ++ (Nat.repr 7).data) :=
  ⟨by decide,
    (c8_metadata_query (("select * from t").data) 7 (("select * from t").data)
      (by decide)).1 (by decide) (by decide)⟩

/-- Python `c.isalnum()` restricted to ASCII input. -/
def pyIsAlnum (c : Char) : Bool := c.isAlphanum

/-- Character filter for a custom filename (`mysql_explorer.py` line
199): alphanumerics, space, underscore, hyphen, dot. -/
def customKeep (c : Char) : Bool :=
  pyIsAlnum c || c = ' ' || c = '_' || c = '-' || c = '.'

/-- Character filter for the auto-generated filename (line 211):
alphanumerics, space, underscore, hyphen — no dot. -/
def autoKeep (c : Char) : Bool :=
  pyIsAlnum c || c = ' ' || c = '_' || c = '-'

/-- Python `replace(' ', '_')` on one character. -/
def spaceToUnderscore (c : Char) : Char := if c = ' ' then '_' else c

/-- Python `rsplit('.', 1)[0]`: everything before the last dot. -/
def dropLastExt (s : List Char) : List Char :=
  ((s.reverse.dropWhile fun c => !(c == '.')).tail).reverse

/-- Custom-name sanitization (`mysql_explorer.py` lines 197-204): filter,
strip, spaces to underscores, then drop a pre-existing extension. -/
def sanitizeCustom (n : List Char) : List Char :=
  let s := (pyStrip (n.filter customKeep)).map spaceToUnderscore
  if ('.') ∈ s then dropLastExt s else s

/-- The first-50-characters query snippet used for auto names (line 210):
newlines become spaces, carriage returns are removed, then truncate. -/
def querySnippet (q : List Char) : List Char :=
  ((q.map fun c => if c = nlChar then ' ' else c).filter fun c => !(c == crChar)).take 50

/-- Auto-name sanitization (lines 211-212). -/
def sanitizeAuto (q : List Char) : List Char :=
  (pyStrip ((querySnippet q).filter autoKeep)).map spaceToUnderscore

/-- Filename resolution of `save_query_results` (lines 197-214); `ts` is
the timestamp string.  An empty custom name is falsy in Python and takes
the auto branch. -/
def resolveFilename (custom : Option (List Char)) (q ts fmt : List Char) : List Char :=
  match custom with
  | some n =>
    if n.isEmpty then ("query_").data ++ ts ++ ('_' :: sanitizeAuto q) ++ ('.' :: fmt)
    else sanitizeCustom n ++ ('.' :: fmt)
  | none => ("query_").data ++ ts ++ ('_' :: sanitizeAuto q) ++ ('.' :: fmt)

/-- Fuelled model of Python `str.replace(pat, repl)` (all occurrences,
left to right). -/
def replaceAllFuel (pat repl : List Char) : Nat → List Char → List Char
  | _, [] => []
  | 0, l => l
  | fuel + 1, c :: rest =>
    if pat.isPrefixOf (c :: rest) ∧ pat ≠ [] then
      repl ++ replaceAllFuel pat repl fuel ((c :: rest).drop pat.length)
    else c :: replaceAllFuel pat repl fuel rest

/-- Python `str.replace` on a full string. -/
def replaceAll (pat repl l : List Char) : List Char :=
  replaceAllFuel pat repl l.length l

/-- Environment of one `save_query_results` call: a write-failure oracle
(the error text when the write at a path fails) and the byte sizes the
three possible serializations would occupy on disk. -/
structure SaveEnv where
  wfail : List Char → Option (List Char)
  jsonSize : Nat
  csvSize : Nat
  sidecarSize : Nat

/-- Modeled message of the OS error raised by `os.path.getsize` on a
missing file. -/
def noSuchFileMsg (path : List Char) : List Char :=
  ("No such file or directory: ").data ++ path

/-- Modeled message of the unsupported-format `ValueError` of line 255
(text abbreviated). -/
def unsupportedMsg (fmt : List Char) : List Char :=
  ("Unsupported file format: ").data ++ fmt

/-- Python `os.path.getsize`: newly written files shadow the pre-existing file
system (an association list from path to byte size). -/
def lookupSize (fs writes : List (List Char × Nat)) (p : List Char) :
    Except (List Char) Nat :=
  match (writes ++ fs).lookup p with
  | some n => Except.ok n
  | none => Except.error (noSuchFileMsg p)

/-- The try-block of `save_query_results` (`mysql_explorer.py` lines
218-258): format dispatch (case-insensitive), the writes each branch
performs, and the final `getsize` on the primary path.  A zero-row CSV
performs no write at all (lines 237-253 are guarded by `if data:`).
Returns the writes performed and either the primary file's size or the
raised failure. -/
def savePhase (env : SaveEnv) (fs : List (List Char × Nat))
    (fmt path sidecar : List Char) (dataLen : Nat) :
    List (List Char × Nat) × Except (List Char) Nat :=
  if fmt.map Char.toLower = ("json").data then
    match env.wfail path with
    | some e => ([], Except.error e)
    | none => ([(path, env.jsonSize)], lookupSize fs [(path, env.jsonSize)] path)
  else if fmt.map Char.toLower = ("csv").data then
    if dataLen = 0 then ([], lookupSize fs [] path)
    else
      match env.wfail path with
      | some e => ([], Except.error e)
      | none =>
        match env.wfail sidecar with
        | some e => ([(path, env.csvSize)], Except.error e)
        | none =>
          ([(path, env.csvSize), (sidecar, env.sidecarSize)],
            lookupSize fs [(path, env.csvSize), (sidecar, env.sidecarSize)] path)
  else ([], Except.error (unsupportedMsg fmt))

/-- Success payload of `save_query_results` (lines 263-268); `size` is
kept in bytes (`format_file_size` is display-only formatting). -/
structure SaveOk where
  filename : List Char
  fmt : List Char
  size : Nat
  row_count : Nat
deriving DecidableEq, Repr

/-- Error payload of `save_query_results` (lines 272-275). -/
structure SaveErr where
  error : List Char
  row_count : Nat
deriving DecidableEq, Repr

/-- The path under the output directory for a resolved filename. -/
def targetPath (custom : Option (List Char)) (q ts fmt : List Char) : List Char :=
  ("temp_data/").data ++ resolveFilename custom q ts fmt

/-- Model of `save_query_results` (`mysql_explorer.py` lines 181-275):
filename resolution, then the guarded write phase; every failure inside
the try-block is caught and returned as the structured error payload with
the input row count.  The first component records the file writes
performed. -/
def save_query_results {α : Type} (env : SaveEnv) (fs : List (List Char × Nat))
    (query : List Char) (data : List α) (fmt : List Char)
    (custom : Option (List Char)) (ts : List Char) :
    List (List Char × Nat) × (SaveOk ⊕ SaveErr) :=
  match savePhase env fs fmt (targetPath custom query ts fmt)
      (replaceAll ((".csv").data) (("_metadata.json").data)
        (targetPath custom query ts fmt)) data.length with
  | (w, Except.ok sz) =>
      (w, Sum.inl ⟨resolveFilename custom query ts fmt, fmt, sz, data.length⟩)
  | (w, Except.error e) =>
      (w, Sum.inr ⟨("Failed to save file: ").data ++ e, data.length⟩)

/-- Row count reported by either payload. -/
def resultRowCount : SaveOk ⊕ SaveErr → Nat
  | Sum.inl o => o.row_count
  | Sum.inr e => e.row_count

theorem mem_of_mem_dropWhile {α : Type} {p : α → Bool} :
    ∀ {l : List α} {a : α}, a ∈ l.dropWhile p → a ∈ l := by
  intro l
  induction l with
  | nil => intro a h; simp [List.dropWhile] at h
  | cons b t ih =>
    intro a h
    rw [List.dropWhile_cons] at h
    split at h
    · exact List.mem_cons_of_mem b (ih h)
    · exact h

theorem mem_of_mem_pyStrip {l : List Char} {c : Char} (h : c ∈ pyStrip l) : c ∈ l := by
  unfold pyStrip at h
  rw [List.mem_reverse] at h
  have h2 := mem_of_mem_dropWhile h
  rw [List.mem_reverse] at h2
  exact mem_of_mem_dropWhile h2

theorem mem_of_mem_dropLastExt {s : List Char} {c : Char}
    (h : c ∈ dropLastExt s) : c ∈ s := by
  unfold dropLastExt at h
  rw [List.mem_reverse] at h
  have h2 := mem_of_mem_dropWhile (List.mem_of_mem_tail h)
  rwa [List.mem_reverse] at h2

theorem sanitizeAuto_chars {q : List Char} {c : Char} (h : c ∈ sanitizeAuto q) :
    c.isAlphanum = true ∨ c = '_' ∨ c = '-' := by
  unfold sanitizeAuto at h
  rcases List.mem_map.mp h with ⟨b, hb, hbc⟩
  have hkeep := (List.mem_filter.mp (mem_of_mem_pyStrip hb)).2
  by_cases hsp : b = ' '
  · right; left
    rw [← hbc, hsp]
    rfl
  · have hcb : c = b := by
      rw [← hbc]; simp [spaceToUnderscore, hsp]
    subst hcb
    have : c.isAlphanum = true ∨ c = ' ' ∨ c = '_' ∨ c = '-' := by
      simpa [autoKeep, pyIsAlnum, or_assoc] using hkeep
    rcases this with h1 | h1 | h1 | h1
    · exact Or.inl h1
    · exact absurd h1 hsp
    · exact Or.inr (Or.inl h1)
    · exact Or.inr (Or.inr h1)

theorem sanitizeCustom_chars {n : List Char} {c : Char} (h : c ∈ sanitizeCustom n) :
    c.isAlphanum = true ∨ c = '_' ∨ c = '-' ∨ c = '.' := by
  have hbase : ∀ d : Char,
      d ∈ (pyStrip (n.filter customKeep)).map spaceToUnderscore →
      d.isAlphanum = true ∨ d = '_' ∨ d = '-' ∨ d = '.' := by
    intro d hd
    rcases List.mem_map.mp hd with ⟨b, hb, hbd⟩
    have hkeep := (List.mem_filter.mp (mem_of_mem_pyStrip hb)).2
    by_cases hsp : b = ' '
    · right; left
      rw [← hbd, hsp]
      rfl
    · have hdb : d = b := by
        rw [← hbd]; simp [spaceToUnderscore, hsp]
      subst hdb
      have : d.isAlphanum = true ∨ d = ' ' ∨ d = '_' ∨ d = '-' ∨ d = '.' := by
        simpa [customKeep, pyIsAlnum, or_assoc] using hkeep
      rcases this with h1 | h1 | h1 | h1 | h1
      · exact Or.inl h1
      · exact absurd h1 hsp
      · exact Or.inr (Or.inl h1)
      · exact Or.inr (Or.inr (Or.inl h1))
      · exact Or.inr (Or.inr (Or.inr h1))
  simp only [sanitizeCustom] at h
  split at h
  · exact hbase c (mem_of_mem_dropLastExt h)
  · exact hbase c h

/-- C7 counterexample.  The two filename modes do not use the same
character filter: the custom filter keeps a dot, the auto filter drops
it, so `v1.2` sanitizes to `v12` on the auto path while the custom filter
leaves `v1.2` intact. -/
theorem c7_counterexample :
    customKeep '.' = true ∧ autoKeep '.' = false ∧
    (("v1.2").data).filter customKeep = ("v1.2").data ∧
    sanitizeAuto (("v1.2").data) = ("v12").data :=
  ⟨by decide, by decide, by decide, by decide⟩

/-- C7 amended: a nonempty custom name is sanitized with the
dot-including filter (spaces to underscores, last extension dropped) and
gets the format extension; an auto name is `query_` plus timestamp plus
the sanitized 50-character query prefix, but with the dot-free filter.
Consequently every character of an auto name's sanitized part is
alphanumeric, underscore or hyphen (never a dot), while a sanitized
custom name may also retain dots. -/
theorem c7_amended (query ts fmt : List Char) :
    (∀ n : List Char, n ≠ [] →
      resolveFilename (some n) query ts fmt = sanitizeCustom n ++ ('.' :: fmt)) ∧
    (resolveFilename none query ts fmt =
      ("query_").data ++ ts ++ ('_' :: sanitizeAuto query) ++ ('.' :: fmt)) ∧
    (∀ c : Char, c ∈ sanitizeAuto query → c.isAlphanum = true ∨ c = '_' ∨ c = '-') ∧
    (∀ (c : Char) (n : List Char), c ∈ sanitizeCustom n →
      c.isAlphanum = true ∨ c = '_' ∨ c = '-' ∨ c = '.') := by
  refine ⟨?_, rfl, ?_, ?_⟩
  · intro n hn
    simp only [resolveFilename]
    rw [if_neg (by simpa [List.isEmpty_iff] using hn)]
  · intro c hc
    exact sanitizeAuto_chars hc
  · intro c n hc
    exact sanitizeCustom_chars hc

theorem c7_amended_witness :
    ((("report v2").data ≠ [] ∧
      resolveFilename (some (("report v2").data)) (("select 1").data)
          (("20240101_000000").data) (("csv").data) =
        sanitizeCustom (("report v2").data) ++ ('.' :: ("csv").data)) ∧
     ('v' ∈ sanitizeAuto (("select v from t").data) ∧
      ('v' : Char).isAlphanum = true ∨ ('v' : Char) = '_' ∨ ('v' : Char) = '-')) :=
  ⟨⟨by decide,
      (c7_amended (("select 1").data) (("20240101_000000").data) (("csv").data)).1
        (("report v2").data) (by decide)⟩,
    Or.inl ⟨by decide,
      by
        rcases (c7_amended (("select v from t").data) ([]) ([])).2.2.1 'v' (by decide)
          with h | h | h
        · exact h
        · exact absurd h (by decide)
        · exact absurd h (by decide)⟩⟩

/-- C10: a custom filename consisting only of dropped characters (`###`)
sanitizes to the empty string, and the artifact filename is exactly the
dot plus the format extension; no default name is substituted and the
empty base is not rejected. -/
theorem c10_empty_sanitized :
    sanitizeCustom (("###").data) = [] ∧
    resolveFilename (some (("###").data)) (("select 1").data)
        (("20240101_000000").data) (("csv").data) = ((".csv").data) :=
  ⟨by decide, by decide⟩

/-- C6: a zero-row CSV export performs no file write at all (neither the
data file nor the metadata sidecar), never raises, and its structured
return reports row count 0; on a fresh path the final `getsize` finds no
file, so the return is the structured error payload. -/
theorem c6_zero_row_csv {α : Type} (env : SaveEnv) (fs : List (List Char × Nat))
    (query ts : List Char) (custom : Option (List Char))
    (h : fs.lookup (targetPath custom query ts (("csv").data)) = none) :
    (save_query_results env fs query ([] : List α) (("csv").data) custom ts).1 = [] ∧
    (save_query_results env fs query ([] : List α) (("csv").data) custom ts).2 =
      Sum.inr ⟨("Failed to save file: ").data ++
        noSuchFileMsg (targetPath custom query ts (("csv").data)), 0⟩ ∧
    resultRowCount
      (save_query_results env fs query ([] : List α) (("csv").data) custom ts).2 = 0 := by
  have hsp : savePhase env fs (("csv").data) (targetPath custom query ts (("csv").data))
      (replaceAll ((".csv").data) (("_metadata.json").data)
        (targetPath custom query ts (("csv").data))) ([] : List α).length =
      ([], Except.error (noSuchFileMsg (targetPath custom query ts (("csv").data)))) := by
    unfold savePhase lookupSize
    rw [if_neg (by decide), if_pos (by decide),
      if_pos (show ([] : List α).length = 0 from rfl), List.nil_append, h]
  refine ⟨?_, ?_, ?_⟩ <;> (unfold save_query_results; rw [hsp]) <;> rfl

/-- A failure-free environment with fixed serialized sizes, for concrete
witnesses. -/
def env0 : SaveEnv := ⟨fun _ => none, 100, 200, 50⟩

theorem c6_zero_row_csv_witness :
    ([] : List (List Char × Nat)).lookup
        (targetPath none (("select 1").data) (("ts").data) (("csv").data)) = none ∧
    ((save_query_results env0 [] (("select 1").data) ([] : List Nat) (("csv").data)
        none (("ts").data)).1 = [] ∧
      (save_query_results env0 [] (("select 1").data) ([] : List Nat) (("csv").data)
        none (("ts").data)).2 =
        Sum.inr ⟨("Failed to save file: ").data ++
          noSuchFileMsg (targetPath none (("select 1").data) (("ts").data)
            (("csv").data)), 0⟩ ∧
      resultRowCount (save_query_results env0 [] (("select 1").data) ([] : List Nat)
        (("csv").data) none (("ts").data)).2 = 0) :=
  ⟨rfl, c6_zero_row_csv env0 [] (("select 1").data) (("ts").data) none rfl⟩

/-- C9: the write phase of `save_query_results` never propagates a
failure: for every environment (including arbitrary write failures) the
result is either a success descriptor or the structured error payload,
and both carry a row count equal to the length of the input data; an
unsupported format tag in particular always yields the structured error
payload. -/
theorem c9_save_total {α : Type} (env : SaveEnv) (fs : List (List Char × Nat))
    (query : List Char) (data : List α) (fmt : List Char)
    (custom : Option (List Char)) (ts : List Char) :
    ((∃ sz : Nat, (save_query_results env fs query data fmt custom ts).2 =
        Sum.inl ⟨resolveFilename custom query ts fmt, fmt, sz, data.length⟩) ∨
      (∃ msg : List Char, (save_query_results env fs query data fmt custom ts).2 =
        Sum.inr ⟨msg, data.length⟩)) ∧
    (fmt.map Char.toLower ≠ ("json").data → fmt.map Char.toLower ≠ ("csv").data →
      (save_query_results env fs query data fmt custom ts).2 =
        Sum.inr ⟨("Failed to save file: ").data ++ unsupportedMsg fmt, data.length⟩) := by
  constructor
  · rcases hsp : savePhase env fs fmt (targetPath custom query ts fmt)
        (replaceAll ((".csv").data) (("_metadata.json").data)
          (targetPath custom query ts fmt)) data.length with ⟨w, r⟩
    cases r with
    | ok sz =>
      left
      exact ⟨sz, by unfold save_query_results; rw [hsp]⟩
    | error e =>
      right
      exact ⟨("Failed to save file: ").data ++ e, by unfold save_query_results; rw [hsp]⟩
  · intro h1 h2
    have hsp : savePhase env fs fmt (targetPath custom query ts fmt)
        (replaceAll ((".csv").data) (("_metadata.json").data)
          (targetPath custom query ts fmt)) data.length =
        ([], Except.error (unsupportedMsg fmt)) := by
      unfold savePhase
      rw [if_neg h1, if_neg h2]
    unfold save_query_results
    rw [hsp]

theorem c9_save_total_witness :
    ((("xml").data).map Char.toLower ≠ ("json").data) ∧
    ((("xml").data).map Char.toLower ≠ ("csv").data) ∧
    (save_query_results env0 [] (("select 1").data) ([10, 20] : List Nat)
        (("xml").data) none (("ts").data)).2 =
      Sum.inr ⟨("Failed to save file: ").data ++ unsupportedMsg (("xml").data), 2⟩ :=
  ⟨by decide, by decide,
    (c9_save_total env0 [] (("select 1").data) ([10, 20] : List Nat) (("xml").data)
      none (("ts").data)).2 (by decide) (by decide)⟩
